import Mathlib

/-!
Shallow embedding of the repository-status synchronization engine of the
GitHubConnectCard component (src/unnamed/part_002) of the
Kartavya-Continual-Learning-Engine repository.

The component keeps a `prefetched : Record<number, Prefetched>` map from
repository id to its best-known counters and optional per-file status list,
plus two single-valued operation locks `indexingRepoId`/`deletingRepoId`.
The mutating operations embedded here, each translated from the source:

* `bumpCounts`        — lines 110-120 (the spec's `applyDelta` counter half)
* `markFileIndexed`   — lines 122-131 (the spec's `applyDelta` file half)
* `fileEvent`         — lines 140-151, the SSE `file` event listener
* `mergeCounters`     — the summary-prefetch / refresh merge (lines 69-78 etc.)
* `mergeFiles`        — the full-files prefetch merge, lines 88-105
* `applyFilesResponse`— the `done` reconciliation merge, lines 156-169
* `handleIndexLive` / `clickIndexNow` — lines 134-139 plus the UI guard
  `disabled={isIndexing || isDeleting}` at lines 400-407
* `doneEventStep`, `onErrorEvent` — lines 152-155 and 172-175
* `handleUnindex` / `clickReset` — lines 179-226 plus the UI guard at 408-416

Network effects are made explicit: operations that fire follow-up requests
return the list of requests they issue alongside the new state.
-/

/-- Aggregate indexing progress for one repository (source `type Counts`).
JS numbers are modelled as `Int` so that the `Math.max(0, ·)` clamp is
meaningful. -/
structure Counts where
  total : Int
  indexed : Int
deriving Repr, DecidableEq

/-- Per-file indexing state (source union `"indexed" | "not-indexed"`). -/
inductive FStat where
  | indexed
  | notIndexed
deriving Repr, DecidableEq

/-- One entry of the per-file list (source `type FileStatus`). -/
structure FileStatus where
  path : String
  status : FStat
deriving Repr, DecidableEq

/-- Best-known view of one repository (source `type Prefetched`): optional
counters and optional full file list. -/
structure Prefetched where
  counts : Option Counts := none
  files : Option (List FileStatus) := none
deriving Repr, DecidableEq

/-- The component's mutable state: the `prefetched` record keyed by repository
id, and the two single-valued operation locks. -/
structure CardState where
  prefetched : Nat → Option Prefetched
  indexingRepoId : Option Nat := none
  deletingRepoId : Option Nat := none

/-- Follow-up network requests an operation fires (fetches in the source). -/
inductive Request where
  | filesDetail (repoId : Nat)
  | summary (repoId : Nat)
deriving Repr, DecidableEq

/-- Source: `files.reduce((n, f) => n + (f.status === "indexed" ? 1 : 0), 0)`. -/
def nIdxOf (files : List FileStatus) : Nat :=
  files.foldl (fun n f => n + (if f.status = FStat.indexed then 1 else 0)) 0

/-- Source: `prev[repoId] || {}`. -/
def getEntry (st : CardState) (repoId : Nat) : Prefetched :=
  (st.prefetched repoId).getD {}

/-- Source: `{ ...prev, [repoId]: e }`. -/
def setEntry (st : CardState) (repoId : Nat) (e : Prefetched) : CardState :=
  { st with prefetched := fun id => if id = repoId then some e else st.prefetched id }

/-- The summary merge used by the all-repos prefetch, the post-reset summary
re-read and `refreshAll`: `{ ...(prev[repo.id] || {}), counts: data.counts }`. -/
def mergeCounters (st : CardState) (repoId : Nat) (c : Counts) : CardState :=
  setEntry st repoId { getEntry st repoId with counts := some c }

/-- The full-files prefetch merge of `loadRepos` (lines 88-105): the entry
becomes `{ counts: prev[repo.id]?.counts ?? { total: files.length, indexed: nIdx }, files }`. -/
def mergeFiles (st : CardState) (repoId : Nat) (files : List FileStatus) : CardState :=
  setEntry st repoId
    { counts := some (((st.prefetched repoId).bind Prefetched.counts).getD
        { total := (files.length : Int), indexed := (nIdxOf files : Int) }),
      files := some files }

/-- Source `bumpCounts` (lines 110-120): reads `cur.counts || { total: 0, indexed: 0 }`
and stores `{ total: counts.total, indexed: Math.max(0, counts.indexed + deltaIndexed) }`. -/
def bumpCounts (st : CardState) (repoId : Nat) (deltaIndexed : Int) : CardState :=
  let cur := getEntry st repoId
  let counts := cur.counts.getD { total := 0, indexed := 0 }
  setEntry st repoId
    { cur with counts := some { total := counts.total,
                                indexed := max 0 (counts.indexed + deltaIndexed) } }

/-- Source `markFileIndexed` (lines 122-131): no-op when `cur.files` is absent,
otherwise flips the named path's status to `"indexed"`. -/
def markFileIndexed (st : CardState) (repoId : Nat) (path : String) : CardState :=
  let cur := getEntry st repoId
  match cur.files with
  | none => st
  | some files =>
      setEntry st repoId
        { cur with files := some (files.map (fun f =>
            if f.path = path then { f with status := FStat.indexed } else f)) }

/-- The SSE `file` event listener (lines 140-151): on `ok` it calls
`bumpCounts(repoId, 1)` then `markFileIndexed(repoId, path)`; otherwise nothing. -/
def fileEvent (st : CardState) (repoId : Nat) (path : String) (ok : Bool) : CardState :=
  if ok then markFileIndexed (bumpCounts st repoId 1) repoId path else st

/-- Entry of `handleIndexLive` (lines 134-139): sets the single indexing lock id. -/
def handleIndexLive (st : CardState) (repoId : Nat) : CardState :=
  { st with indexingRepoId := some repoId }

/-- The "Index now" button action: the render disables the button via
`disabled={isIndexing || isDeleting}` (lines 400-407), where both flags compare
the single lock ids against this repository's id; when enabled it calls
`handleIndexLive`. -/
def clickIndexNow (st : CardState) (repoId : Nat) : CardState :=
  if st.indexingRepoId = some repoId ∨ st.deletingRepoId = some repoId then st
  else handleIndexLive st repoId

/-- The SSE `done` listener (lines 152-155): closes the channel, clears the
indexing lock and fires the reconciling files re-read. -/
def doneEventStep (st : CardState) (repoId : Nat) : CardState × List Request :=
  ({ st with indexingRepoId := none }, [Request.filesDetail repoId])

/-- The `done` reconciliation merge (lines 156-169): the entry is replaced by
`{ counts: { total: files.length, indexed: nIdx }, files }` recomputed from the
server response unconditionally. -/
def applyFilesResponse (st : CardState) (repoId : Nat) (files : List FileStatus) : CardState :=
  setEntry st repoId
    { counts := some { total := (files.length : Int), indexed := (nIdxOf files : Int) },
      files := some files }

/-- The SSE `onerror` handler (lines 172-175): closes the channel and clears the
indexing lock; no further request is fired and the cache is untouched. -/
def onErrorEvent (st : CardState) (_repoId : Nat) : CardState × List Request :=
  ({ st with indexingRepoId := none }, [])

/-- Source `handleUnindex` (lines 179-226), after the user confirmation dialog
is parameterized by `confirmed` and the outcome of the DELETE call by
`deleteOk`. Mirrors: the entry guard `if (indexingRepoId === repoId) return`,
`setDeletingRepoId(repoId)`, the optimistic update on success, the summary
re-read fired exactly when the pre-call `prefetched[repoId]?.counts` was
absent, and the `finally { setDeletingRepoId(null) }`. -/
def handleUnindex (st : CardState) (repoId : Nat) (confirmed deleteOk : Bool) :
    CardState × List Request :=
  if st.indexingRepoId = some repoId then (st, [])
  else if !confirmed then (st, [])
  else
    let st1 : CardState := { st with deletingRepoId := some repoId }
    if deleteOk then
      let cur := getEntry st1 repoId
      let st2 := setEntry st1 repoId
        { counts := cur.counts.map (fun c => { total := c.total, indexed := 0 }),
          files := cur.files.map (List.map (fun f => { f with status := FStat.notIndexed })) }
      let reqs := if ((st.prefetched repoId).bind Prefetched.counts).isNone
        then [Request.summary repoId] else []
      ({ st2 with deletingRepoId := none }, reqs)
    else
      ({ st1 with deletingRepoId := none }, [])

/-- The "Reset" button action: the render disables the button via
`disabled={isIndexing || isDeleting}` (lines 408-416); when enabled it calls
`handleUnindex`. -/
def clickReset (st : CardState) (repoId : Nat) (confirmed deleteOk : Bool) :
    CardState × List Request :=
  if st.indexingRepoId = some repoId ∨ st.deletingRepoId = some repoId then (st, [])
  else handleUnindex st repoId confirmed deleteOk

/-- Every counters value stored in the cache has a non-negative `indexed`. -/
def countsNonneg (st : CardState) : Prop :=
  ∀ r e c, st.prefetched r = some e → e.counts = some c → 0 ≤ c.indexed

/-- The spec's derived-consistency relation for one cache entry: when `files`
is present, `counts` is present with `total = files.length` and `indexed` the
number of files in state `indexed`. -/
def entryConsistent (e : Prefetched) : Prop :=
  ∀ fs, e.files = some fs →
    e.counts = some { total := (fs.length : Int), indexed := (nIdxOf fs : Int) }

/-- The empty component state (no entries, no locks). -/
def emptyState : CardState :=
  { prefetched := fun _ => none }

/-- A state whose only entry, for repository 7, has counters `{total 5, indexed 5}`
and no file list. -/
def stSaturated : CardState :=
  { prefetched := fun id =>
      if id = 7 then some { counts := some { total := 5, indexed := 5 } } else none }

/-- A state whose only entry, for repository 4, has counters `{total 5, indexed 0}`
and the file list `[a.ts: not-indexed]`. -/
def stOneFile : CardState :=
  { prefetched := fun id =>
      if id = 4 then
        some { counts := some { total := 5, indexed := 0 },
               files := some [{ path := "a.ts", status := FStat.notIndexed }] }
      else none }

/-- A state whose only entry, for repository 9, has counters `{total 10, indexed 4}`
and no file list yet. -/
def stSummaryOnly : CardState :=
  { prefetched := fun id =>
      if id = 9 then some { counts := some { total := 10, indexed := 4 } } else none }

/-- A state whose only entry, for repository 2, has counters `{total 10, indexed 4}`
and a two-file list, one file indexed. -/
def stWithFiles : CardState :=
  { prefetched := fun id =>
      if id = 2 then
        some { counts := some { total := 10, indexed := 4 },
               files := some [{ path := "a.ts", status := FStat.indexed },
                              { path := "b.ts", status := FStat.notIndexed }] }
      else none }

/-- A state with no entries in which repository 3 holds the indexing lock. -/
def stIndexing3 : CardState :=
  { prefetched := fun _ => none, indexingRepoId := some 3 }

/- Helper lemmas shared by the claim theorems. -/

theorem setEntry_prefetched_self (st : CardState) (r : Nat) (e : Prefetched) :
    (setEntry st r e).prefetched r = some e := by
  simp [setEntry]

theorem setEntry_prefetched_ne (st : CardState) (r r' : Nat) (e : Prefetched)
    (h : r' ≠ r) : (setEntry st r e).prefetched r' = st.prefetched r' := by
  simp [setEntry, h]

theorem getEntry_counts (st : CardState) (r : Nat) :
    (getEntry st r).counts = (st.prefetched r).bind Prefetched.counts := by
  cases h : st.prefetched r <;> simp [getEntry, h]

theorem getEntry_files (st : CardState) (r : Nat) :
    (getEntry st r).files = (st.prefetched r).bind Prefetched.files := by
  cases h : st.prefetched r <;> simp [getEntry, h]

theorem countsNonneg_setEntry (st : CardState) (r : Nat) (e : Prefetched)
    (hst : countsNonneg st) (he : ∀ c, e.counts = some c → 0 ≤ c.indexed) :
    countsNonneg (setEntry st r e) := by
  intro r' e' c' h1 h2
  by_cases hr : r' = r
  · subst hr
    rw [setEntry_prefetched_self] at h1
    cases h1
    exact he c' h2
  · rw [setEntry_prefetched_ne st r r' e hr] at h1
    exact hst r' e' c' h1 h2

theorem countsNonneg_markFileIndexed (st : CardState) (r : Nat) (p : String)
    (hst : countsNonneg st) : countsNonneg (markFileIndexed st r p) := by
  unfold markFileIndexed
  cases hf : (getEntry st r).files with
  | none => simpa [hf] using hst
  | some fs =>
      simp only [hf]
      refine countsNonneg_setEntry st r _ hst ?_
      intro c hc
      simp only at hc
      rw [getEntry_counts] at hc
      cases hpre : st.prefetched r with
      | none => rw [hpre] at hc; simp at hc
      | some e0 =>
          rw [hpre] at hc
          exact hst r e0 c hpre hc

theorem counts_markFileIndexed (st : CardState) (r : Nat) (p : String) :
    ((markFileIndexed st r p).prefetched r).bind Prefetched.counts
      = (st.prefetched r).bind Prefetched.counts := by
  unfold markFileIndexed
  cases hf : (getEntry st r).files with
  | none => simp [hf]
  | some fs =>
      simp only [hf]
      rw [setEntry_prefetched_self]
      simp [getEntry_counts]

/- Claim theorems. -/

/-- C1 (counterexample): the claim "any operation that would violate
`0 ≤ indexed ≤ total` clamps the result to `[0, total]`" is false on the code:
`bumpCounts` clamps only below at 0. On the entry `{total 5, indexed 5}` a
single `+1` delta stores `indexed = 6 > total = 5` instead of clamping to 5. -/
theorem c1_counterexample :
    (bumpCounts stSaturated 7 1).prefetched 7
      = some { counts := some { total := 5, indexed := 6 }, files := none }
    ∧ ¬ ((6 : Int) ≤ 5) := by
  refine ⟨?_, by decide⟩
  decide

/-- C1 (amended): after every merge operation (`bumpCounts`, the `file` event,
`mergeCounters` with a well-formed summary, `mergeFiles`, the `done`
reconciliation, and `handleUnindex` including its reset optimistic update)
every stored counter satisfies `0 ≤ indexed` — the operations clamp only below
at 0 and never drive `indexed` negative; no upper clamp to `total` exists. -/
theorem c1_indexed_nonneg_preserved (st : CardState) (hst : countsNonneg st) :
    (∀ r d, countsNonneg (bumpCounts st r d)) ∧
    (∀ r p ok, countsNonneg (fileEvent st r p ok)) ∧
    (∀ r c, 0 ≤ c.indexed → countsNonneg (mergeCounters st r c)) ∧
    (∀ r fs, countsNonneg (mergeFiles st r fs)) ∧
    (∀ r fs, countsNonneg (applyFilesResponse st r fs)) ∧
    (∀ r conf dOk, countsNonneg (handleUnindex st r conf dOk).1) := by
  have hbump : ∀ r d, countsNonneg (bumpCounts st r d) := by
    intro r d
    unfold bumpCounts
    refine countsNonneg_setEntry st r _ hst ?_
    intro c hc
    simp only at hc
    cases hc
    exact le_max_left 0 _
  refine ⟨hbump, ?_, ?_, ?_, ?_, ?_⟩
  · intro r p ok
    unfold fileEvent
    by_cases hok : ok = true
    · simp only [hok, if_true]
      exact countsNonneg_markFileIndexed _ r p (hbump r 1)
    · simp only [Bool.not_eq_true] at hok
      simpa [hok] using hst
  · intro r c hc
    unfold mergeCounters
    refine countsNonneg_setEntry st r _ hst ?_
    intro c' hc'
    simp only at hc'
    cases hc'
    exact hc
  · intro r fs
    unfold mergeFiles
    refine countsNonneg_setEntry st r _ hst ?_
    intro c' hc'
    simp only at hc'
    cases hc'
    cases hb : (st.prefetched r).bind Prefetched.counts with
    | none => simp [hb]
    | some c0 =>
        rcases Option.bind_eq_some.mp hb with ⟨e, he1, he2⟩
        simpa [hb] using hst r e c0 he1 he2
  · intro r fs
    unfold applyFilesResponse
    refine countsNonneg_setEntry st r _ hst ?_
    intro c' hc'
    simp only at hc'
    cases hc'
    exact Int.natCast_nonneg _
  · intro r conf dOk
    unfold handleUnindex
    split
    · exact hst
    · split
      · exact hst
      · split
        · refine countsNonneg_setEntry _ r _ hst ?_
          intro c' hc'
          simp only at hc'
          rcases Option.map_eq_some'.mp hc' with ⟨c0, _, hc0⟩
          cases hc0.symm
          exact le_refl 0
        · exact hst

/-- C1 (witness): the amended theorem applied to the empty cache and, for the
`mergeCounters` branch, a well-formed summary value. -/
theorem c1_indexed_nonneg_witness :
    countsNonneg emptyState ∧ (0 : Int) ≤ 2 ∧
    countsNonneg (mergeCounters emptyState 1 { total := 5, indexed := 2 }) := by
  have hbase : countsNonneg emptyState := by
    intro r e c h1 _
    simp [emptyState] at h1
  exact ⟨hbase, by decide,
    (c1_indexed_nonneg_preserved emptyState hbase).2.2.1 1 { total := 5, indexed := 2 }
      (by decide)⟩

/-- C2 (code evaluation at the failing input): the locks are two single global
ids, not per-repository flags. Starting an index stream on repository 1 while
repository 2 is indexing is permitted by the guard (it only checks repository
1's own flags) and overwrites repository 2's lock; repository 2's `done` event
then clears the flag entirely although repository 1's stream is still open, so
the two repositories' lock states interfere. -/
theorem c2_single_lock_interference :
    (clickIndexNow emptyState 2).indexingRepoId = some 2 ∧
    (clickIndexNow (clickIndexNow emptyState 2) 1).indexingRepoId = some 1 ∧
    (doneEventStep (clickIndexNow (clickIndexNow emptyState 2) 1) 2).1.indexingRepoId
      = none := by
  refine ⟨?_, ?_, ?_⟩ <;> decide

/-- C10: for a repository whose cache entry has no counters, `bumpCounts`
(the counter half of the spec's `applyDelta`) creates the counters value
`{total := 0, indexed := max 0 delta}`. -/
theorem c10_bumpCounts_no_counters (st : CardState) (r : Nat) (d : Int)
    (h : (st.prefetched r).bind Prefetched.counts = none) :
    ((bumpCounts st r d).prefetched r).bind Prefetched.counts
      = some { total := 0, indexed := max 0 d } := by
  unfold bumpCounts
  rw [setEntry_prefetched_self]
  simp [getEntry_counts, h]

/-- C10 (witness): a single successful file event's `bumpCounts(repoId, 1)` on
a repository with no prior summary yields counters `{total 0, indexed 1}`. -/
theorem c10_bumpCounts_no_counters_witness :
    (emptyState.prefetched 5).bind Prefetched.counts = none ∧
    ((bumpCounts emptyState 5 1).prefetched 5).bind Prefetched.counts
      = some { total := 0, indexed := 1 } := by
  refine ⟨rfl, ?_⟩
  rw [c10_bumpCounts_no_counters emptyState 5 1 rfl]
  decide

theorem getEntry_setEntry_self (st : CardState) (r : Nat) (e : Prefetched) :
    getEntry (setEntry st r e) r = e := by
  unfold getEntry
  rw [setEntry_prefetched_self]
  rfl

theorem counts_fileEvent_ok (st : CardState) (r : Nat) (p : String) (c : Counts)
    (h : (st.prefetched r).bind Prefetched.counts = some c) :
    ((fileEvent st r p true).prefetched r).bind Prefetched.counts
      = some { total := c.total, indexed := max 0 (c.indexed + 1) } := by
  have hdef : fileEvent st r p true = markFileIndexed (bumpCounts st r 1) r p := rfl
  rw [hdef, counts_markFileIndexed]
  unfold bumpCounts
  rw [setEntry_prefetched_self]
  simp [getEntry_counts, h]

/-- C3 (counterexample): with counters `{total 5, indexed 0}` and the file list
`[a.ts: not-indexed]` loaded, two successful `file` events for `a.ts` leave
`indexed = 2` although the file's state transitioned only once — the claim that
a second event on an already-indexed path does not increment again is false:
the counter bump is unconditional on the file's prior state. -/
theorem c3_counterexample :
    (fileEvent (fileEvent stOneFile 4 "a.ts" true) 4 "a.ts" true).prefetched 4
      = some { counts := some { total := 5, indexed := 2 },
               files := some [{ path := "a.ts", status := FStat.indexed }] }
    ∧ ¬ ((2 : Int) = 1) := by
  refine ⟨by decide, by decide⟩

/-- C3 (amended): each successful `file` event increments `counters.indexed`
by exactly 1 regardless of the named file's previous state, so two events for
the same path increase `indexed` by 2 even though the file-state flip is
idempotent. -/
theorem c3_fileEvent_increment_unconditional (st : CardState) (r : Nat) (p : String)
    (c : Counts) (h : (st.prefetched r).bind Prefetched.counts = some c)
    (hnn : 0 ≤ c.indexed) :
    ((fileEvent st r p true).prefetched r).bind Prefetched.counts
      = some { total := c.total, indexed := c.indexed + 1 } ∧
    ((fileEvent (fileEvent st r p true) r p true).prefetched r).bind Prefetched.counts
      = some { total := c.total, indexed := c.indexed + 2 } := by
  have h1 := counts_fileEvent_ok st r p c h
  have hmax1 : max 0 (c.indexed + 1) = c.indexed + 1 := max_eq_right (by omega)
  rw [hmax1] at h1
  refine ⟨h1, ?_⟩
  have h2 := counts_fileEvent_ok (fileEvent st r p true) r p _ h1
  have hmax2 : max 0 (c.indexed + 1 + 1) = c.indexed + 2 := by
    rw [max_eq_right (by omega)]
    omega
  rw [hmax2] at h2
  exact h2

/-- C3 (witness): the amended theorem at the one-file state: both event
applications increment, yielding `indexed = 1` then `indexed = 2`. -/
theorem c3_fileEvent_increment_witness :
    (stOneFile.prefetched 4).bind Prefetched.counts = some { total := 5, indexed := 0 } ∧
    (0 : Int) ≤ 0 ∧
    ((fileEvent stOneFile 4 "a.ts" true).prefetched 4).bind Prefetched.counts
      = some { total := 5, indexed := 1 } ∧
    ((fileEvent (fileEvent stOneFile 4 "a.ts" true) 4 "a.ts" true).prefetched 4).bind
        Prefetched.counts = some { total := 5, indexed := 2 } := by
  refine ⟨by decide, by decide, ?_, ?_⟩
  · simpa using
      (c3_fileEvent_increment_unconditional stOneFile 4 "a.ts"
        { total := 5, indexed := 0 } (by decide) (by decide)).1
  · simpa using
      (c3_fileEvent_increment_unconditional stOneFile 4 "a.ts"
        { total := 5, indexed := 0 } (by decide) (by decide)).2

/-- C4 (counterexample): the derived-consistency relation does not hold after
every operation. Starting from summary counters `{total 10, indexed 4}` with no
file list, `mergeFiles` with a one-file list keeps the old counters, so the
resulting entry has `files.length = 1` but `counters.total = 10`. -/
theorem c4_counterexample :
    (mergeFiles stSummaryOnly 9 [{ path := "a.ts", status := FStat.indexed }]).prefetched 9
      = some { counts := some { total := 10, indexed := 4 },
               files := some [{ path := "a.ts", status := FStat.indexed }] }
    ∧ ¬ entryConsistent
        (getEntry (mergeFiles stSummaryOnly 9 [{ path := "a.ts", status := FStat.indexed }]) 9) := by
  constructor
  · decide
  · intro hcon
    have h2 := hcon [{ path := "a.ts", status := FStat.indexed }] (by decide)
    have h3 : (getEntry
        (mergeFiles stSummaryOnly 9 [{ path := "a.ts", status := FStat.indexed }]) 9).counts
        = some { total := 10, indexed := 4 } := by decide
    rw [h3] at h2
    exact absurd h2 (by decide)

/-- C4 (amended): the relation `counters.total = files.length ∧
counters.indexed = #indexed files` is established by `mergeFiles` when no
independently-known counters exist, and unconditionally by the `done`
reconciliation merge; it is not maintained by every operation (see the
counterexample, where `mergeFiles` keeps preexisting counters). -/
theorem c4_consistency_established (st : CardState) (r : Nat) (fs : List FileStatus) :
    ((st.prefetched r).bind Prefetched.counts = none →
      entryConsistent (getEntry (mergeFiles st r fs) r)) ∧
    entryConsistent (getEntry (applyFilesResponse st r fs) r) := by
  constructor
  · intro h
    unfold mergeFiles
    rw [getEntry_setEntry_self]
    intro fs' hfs'
    simp only at hfs'
    cases hfs'
    simp [h]
  · unfold applyFilesResponse
    rw [getEntry_setEntry_self]
    intro fs' hfs'
    simp only at hfs'
    cases hfs'
    rfl

/-- C4 (witness): the amended theorem at the empty state, for one incoming
file: both merge paths produce a consistent entry. -/
theorem c4_consistency_witness :
    (emptyState.prefetched 3).bind Prefetched.counts = none ∧
    entryConsistent
      (getEntry (mergeFiles emptyState 3 [{ path := "a.ts", status := FStat.indexed }]) 3) ∧
    entryConsistent
      (getEntry (applyFilesResponse emptyState 3 [{ path := "a.ts", status := FStat.indexed }]) 3) := by
  exact ⟨rfl,
    (c4_consistency_established emptyState 3 [{ path := "a.ts", status := FStat.indexed }]).1 rfl,
    (c4_consistency_established emptyState 3 [{ path := "a.ts", status := FStat.indexed }]).2⟩

/-- C6: when counters are already known for the repository, `mergeFiles`
overwrites `files` but preserves the existing counters unchanged; it recomputes
counters from the incoming list only when none exist. -/
theorem c6_mergeFiles_preserves_counters (st : CardState) (r : Nat)
    (fs : List FileStatus) (c : Counts)
    (h : (st.prefetched r).bind Prefetched.counts = some c) :
    (mergeFiles st r fs).prefetched r = some { counts := some c, files := some fs } := by
  unfold mergeFiles
  rw [setEntry_prefetched_self]
  simp [h]

/-- C6 (witness): the spec's example — counters `{total 10, indexed 4}` and an
incoming one-file list with only 1 indexed entry: the post-state still reports
`indexed = 4`. -/
theorem c6_mergeFiles_preserves_witness :
    (stSummaryOnly.prefetched 9).bind Prefetched.counts
      = some { total := 10, indexed := 4 } ∧
    nIdxOf [{ path := "a.ts", status := FStat.indexed }] = 1 ∧
    (mergeFiles stSummaryOnly 9 [{ path := "a.ts", status := FStat.indexed }]).prefetched 9
      = some { counts := some { total := 10, indexed := 4 },
               files := some [{ path := "a.ts", status := FStat.indexed }] } := by
  exact ⟨by decide, by decide,
    c6_mergeFiles_preserves_counters stSummaryOnly 9 _ _ (by decide)⟩

/-- C5: when the repository already has an index or reset operation in flight
(its "Index now"/"Reset" buttons are disabled and `handleUnindex` re-checks the
index lock), both mutating operations fail fast as no-ops with no state change
and no request fired. -/
theorem c5_lock_fail_fast (st : CardState) (r : Nat) (conf dOk : Bool)
    (h : st.indexingRepoId = some r ∨ st.deletingRepoId = some r) :
    clickIndexNow st r = st ∧ clickReset st r conf dOk = (st, []) := by
  constructor
  · unfold clickIndexNow
    rw [if_pos h]
  · unfold clickReset
    rw [if_pos h]

/-- C5 (witness): with repository 3 holding the indexing lock, clicking
"Index now" or "Reset" for repository 3 changes nothing. -/
theorem c5_lock_fail_fast_witness :
    stIndexing3.indexingRepoId = some 3 ∧
    clickIndexNow stIndexing3 3 = stIndexing3 ∧
    clickReset stIndexing3 3 true true = (stIndexing3, []) := by
  refine ⟨rfl, ?_, ?_⟩
  · exact (c5_lock_fail_fast stIndexing3 3 true true (Or.inl rfl)).1
  · exact (c5_lock_fail_fast stIndexing3 3 true true (Or.inl rfl)).2

/-- C7: when the reset's DELETE call succeeds, the entry's counters become
`indexed = 0` with `total` preserved, every loaded file's state flips to
not-indexed, a summary re-read is fired exactly when the counters were unknown
before the reset, and the reset lock ends released. -/
theorem c7_reset_success (st : CardState) (r : Nat)
    (h : st.indexingRepoId ≠ some r) :
    (handleUnindex st r true true).1.prefetched r
      = some { counts := ((st.prefetched r).bind Prefetched.counts).map
                 (fun c => { total := c.total, indexed := 0 }),
               files := ((st.prefetched r).bind Prefetched.files).map
                 (List.map (fun f => { f with status := FStat.notIndexed })) } ∧
    (handleUnindex st r true true).2
      = (if ((st.prefetched r).bind Prefetched.counts).isNone
         then [Request.summary r] else []) ∧
    (handleUnindex st r true true).1.deletingRepoId = none := by
  have hred : handleUnindex st r true true
      = ({ setEntry { st with deletingRepoId := some r } r
            { counts := (getEntry { st with deletingRepoId := some r } r).counts.map
                (fun c => { total := c.total, indexed := 0 }),
              files := (getEntry { st with deletingRepoId := some r } r).files.map
                (List.map (fun f => { f with status := FStat.notIndexed })) }
          with deletingRepoId := none },
         if ((st.prefetched r).bind Prefetched.counts).isNone
         then [Request.summary r] else []) := by
    unfold handleUnindex
    rw [if_neg h]
    rfl
  refine ⟨?_, ?_, ?_⟩
  · rw [hred]
    show (setEntry { st with deletingRepoId := some r } r _).prefetched r = _
    rw [setEntry_prefetched_self, getEntry_counts, getEntry_files]
  · rw [hred]
  · rw [hred]

/-- C7 (witness): the theorem at a state whose entry for repository 2 has
counters `{total 10, indexed 4}` and two files, one indexed: the reset yields
`{total 10, indexed 0}`, both files not-indexed, no summary re-read (counters
were known) and a released lock. -/
theorem c7_reset_success_witness :
    stWithFiles.indexingRepoId ≠ some 2 ∧
    (handleUnindex stWithFiles 2 true true).1.prefetched 2
      = some { counts := some { total := 10, indexed := 0 },
               files := some [{ path := "a.ts", status := FStat.notIndexed },
                              { path := "b.ts", status := FStat.notIndexed }] } ∧
    (handleUnindex stWithFiles 2 true true).2 = [] ∧
    (handleUnindex stWithFiles 2 true true).1.deletingRepoId = none := by
  have h := c7_reset_success stWithFiles 2 (by decide)
  refine ⟨by decide, ?_, ?_, h.2.2⟩
  · rw [h.1]
    decide
  · rw [h.2.1]
    decide

/-- C8: when the reset's DELETE call fails, the operation is fail-closed: the
whole `prefetched` cache is left exactly as it was, no request is fired, and
the reset lock ends released. -/
theorem c8_reset_failure_fail_closed (st : CardState) (r : Nat)
    (h : st.indexingRepoId ≠ some r) :
    handleUnindex st r true false = ({ st with deletingRepoId := none }, []) ∧
    (handleUnindex st r true false).1.prefetched = st.prefetched := by
  have hred : handleUnindex st r true false = ({ st with deletingRepoId := none }, []) := by
    unfold handleUnindex
    rw [if_neg h]
    rfl
  exact ⟨hred, by rw [hred]⟩

/-- C8 (witness): the theorem at the two-file state for repository 2. -/
theorem c8_reset_failure_witness :
    stWithFiles.indexingRepoId ≠ some 2 ∧
    handleUnindex stWithFiles 2 true false = ({ stWithFiles with deletingRepoId := none }, []) ∧
    (handleUnindex stWithFiles 2 true false).1.prefetched = stWithFiles.prefetched := by
  have h := c8_reset_failure_fail_closed stWithFiles 2 (by decide)
  exact ⟨by decide, h.1, h.2⟩

/-- C9: on a live-stream channel error — after any partial progress applied by
earlier `file` events — the handler releases the indexing lock, fires no
reconciling re-read, and leaves the cache (hence the partial progress)
untouched. -/
theorem c9_stream_error_retains_progress (st : CardState) (r : Nat)
    (evs : List (String × Bool)) :
    (onErrorEvent (evs.foldl (fun s e => fileEvent s r e.1 e.2) st) r).1.prefetched
      = (evs.foldl (fun s e => fileEvent s r e.1 e.2) st).prefetched ∧
    (onErrorEvent (evs.foldl (fun s e => fileEvent s r e.1 e.2) st) r).1.indexingRepoId
      = none ∧
    (onErrorEvent (evs.foldl (fun s e => fileEvent s r e.1 e.2) st) r).2 = [] := by
  exact ⟨rfl, rfl, rfl⟩
